import Mathlib

set_option linter.unusedVariables false

/-!
Shallow embedding of the TechWorkshop repository (two Python modules):
`src/test_endpoints.py` (an endpoint prober) and
`src/services/fallback_service.py` (two fallback LLM callers).

The process environment is modelled as a function `String → Option String`
(`os.getenv`).  The behaviour of the external world — HTTP responses for
`requests.get` and the outcome of the Azure SDK read operations — is a
`World` record.  Each prober check returns a `CheckOut`: its boolean result
together with the number of network calls it performed, so that
"no network call is attempted" claims are expressible.  Exceptions of the
Python code are modelled explicitly: a transport exception of `requests.get`
is the constructor `HttpResult.exc`, an SDK exception is `SdkResult.fail`,
and exceptions of the fallback callers' client are the `Except.error` branch.
-/

namespace TechWorkshop

/-- Python truthiness of an optional environment value: `None` and the empty
string are falsy, every other string is truthy (as used by
`if not all([...])` guards in `test_endpoints.py`). -/
def truthy : Option String → Bool
  | none => false
  | some s => !(s == "")

/-- Outcome of one `requests.get` call: a response with a status code, or a
transport exception (`requests.exceptions.RequestException`). -/
inductive HttpResult where
  | resp (status : Nat)
  | exc
deriving DecidableEq, Repr

/-- Outcome of one Azure SDK read operation (Cosmos `database.read()` or
blob `get_container_properties()`): success, or any raised exception. -/
inductive SdkResult where
  | ok
  | fail
deriving DecidableEq, Repr

/-- Behaviour of the external services: HTTP responses keyed by URL and
headers, Cosmos keyed by endpoint and database name, storage keyed by
account URL and container name. -/
structure World where
  http : String → List (String × String) → HttpResult
  cosmos : String → String → SdkResult
  storage : String → String → SdkResult

/-- Result of one prober check: the boolean it returns, and how many
network calls it attempted. -/
structure CheckOut where
  result : Bool
  networkCalls : Nat
deriving DecidableEq, Repr

/-- Python `s.rstrip('/')`: remove trailing slash characters. -/
def rstripSlash (s : String) : String :=
  ⟨((s.data.reverse.dropWhile (fun c => c == '/')).reverse)⟩

/-- `test_endpoint(name, url, headers)`: perform `requests.get(url, headers)`;
return true for any status under 500, false for a 5xx status, and false when
a transport exception is raised (caught by the `except` clause). -/
def test_endpoint (http : String → List (String × String) → HttpResult)
    (name url : String) (headers : List (String × String)) : CheckOut :=
  match http url headers with
  | .resp status => ⟨decide (status < 500), 1⟩
  | .exc => ⟨false, 1⟩

/-- `test_azure_openai()`: read three environment values; if any is falsy,
return false with no network call; otherwise GET the deployments-listing URL
with an `api-key` header via `test_endpoint`. -/
def test_azure_openai (env : String → Option String) (w : World) : CheckOut :=
  let endpoint := env "AZURE_OPENAI_ENDPOINT"
  let api_key := env "AZURE_OPENAI_KEY"
  let api_version := env "AZURE_OPENAI_API_VERSION"
  if !(truthy endpoint && truthy api_key && truthy api_version) then
    ⟨false, 0⟩
  else
    let url := rstripSlash (endpoint.getD "") ++ "/openai/deployments?api-version="
      ++ api_version.getD ""
    test_endpoint w.http "Azure OpenAI" url [("api-key", api_key.getD "")]

/-- `test_ai_search()`: read three environment values; if any is falsy,
return false with no network call; otherwise GET the index-metadata URL with
an `api-key` header via `test_endpoint`. -/
def test_ai_search (env : String → Option String) (w : World) : CheckOut :=
  let endpoint := env "SEARCH_ENDPOINT"
  let api_key := env "SEARCH_KEY"
  let index_name := env "INDEX_NAME"
  if !(truthy endpoint && truthy api_key && truthy index_name) then
    ⟨false, 0⟩
  else
    let url := rstripSlash (endpoint.getD "") ++ "/indexes/" ++ index_name.getD ""
      ++ "?api-version=2023-11-01"
    test_endpoint w.http "AI Search" url [("api-key", api_key.getD "")]

/-- `test_cosmos_db()`: read two environment values; if any is falsy, return
false with no network call; otherwise read the database properties with
ambient credentials, converting any exception into a false result. -/
def test_cosmos_db (env : String → Option String) (w : World) : CheckOut :=
  let endpoint := env "COSMOS_ENDPOINT"
  let database_name := env "DATABASE_NAME"
  if !(truthy endpoint && truthy database_name) then
    ⟨false, 0⟩
  else
    match w.cosmos (endpoint.getD "") (database_name.getD "") with
    | .ok => ⟨true, 1⟩
    | .fail => ⟨false, 1⟩

/-- `test_storage_account()`: read two environment values; if any is falsy,
return false with no network call; otherwise fetch the container properties
at the accounts blob URL, converting any exception into a false result. -/
def test_storage_account (env : String → Option String) (w : World) : CheckOut :=
  let storage_account_name := env "storage_account_name"
  let container_name := env "storage_container_name"
  if !(truthy storage_account_name && truthy container_name) then
    ⟨false, 0⟩
  else
    let account_url := "https://" ++ storage_account_name.getD "" ++ ".blob.core.windows.net"
    match w.storage account_url (container_name.getD "") with
    | .ok => ⟨true, 1⟩
    | .fail => ⟨false, 1⟩

/-- Python `str.split(sep)` on character lists: split at every occurrence of
the separator, keeping empty pieces (so `"".split(";") == [""]`). -/
def splitOnCharAux : List Char → Char → List Char → List (List Char)
  | [], _, acc => [acc.reverse]
  | x :: xs, c, acc =>
    if x == c then acc.reverse :: splitOnCharAux xs c []
    else splitOnCharAux xs c (x :: acc)

/-- Python `s.split(sep)` for a one-character separator. -/
def splitString (s : String) (c : Char) : List String :=
  (splitOnCharAux s.data c []).map fun l => ⟨l⟩

/-- Split a character list at the first occurrence of the separator, when
present: Python `item.split(sep, 1)` for an item containing the separator. -/
def splitFirst (c : Char) : List Char → Option (List Char × List Char)
  | [] => none
  | x :: xs =>
    if x == c then some ([], xs)
    else (splitFirst c xs).map fun p => (x :: p.1, p.2)

/-- The connection-string parse of `test_application_insights`:
`dict(item.split("=", 1) for item in conn_string.split(";") if "=" in item)`,
as the association list of its entries in order. -/
def parseConnString (s : String) : List (String × String) :=
  (splitString s ';').filterMap fun item =>
    if item.data.any (fun ch => ch == '=') then
      match splitFirst '=' item.data with
      | some p => some (⟨p.1⟩, ⟨p.2⟩)
      | none => none
    else none

/-- Python `key in dict` for the parsed connection string: some entry of the
association list carries that key. -/
def hasKey (s : String) (k : String) : Bool :=
  (parseConnString s).any fun p => p.1 == k

/-- `test_application_insights()`: if the connection string is falsy, return
false; otherwise parse it and require both `InstrumentationKey` and
`IngestionEndpoint` keys.  No network call is ever made. -/
def test_application_insights (env : String → Option String) : CheckOut :=
  let conn_string := env "APPLICATIONINSIGHTS_CONNECTION_STRING"
  if !(truthy conn_string) then
    ⟨false, 0⟩
  else
    let s := conn_string.getD ""
    ⟨hasKey s "InstrumentationKey" && hasKey s "IngestionEndpoint", 0⟩

/-- Python `str.strip()` whitespace predicate (ASCII whitespace). -/
def isPyWhitespace (c : Char) : Bool :=
  c == ' ' || c == '\t' || c == '\n' || c == '\x0d' ||
  c == '\x0b' || c == '\x0c'

/-- Python `s.strip()`: drop leading and trailing whitespace. -/
def pyStrip (s : String) : String :=
  ⟨((s.data.dropWhile isPyWhitespace).reverse.dropWhile isPyWhitespace).reverse⟩

/-- Python `agent_id and agent_id.strip()` truthiness: the identifier is
configured when it is present, non-empty and not whitespace-only. -/
def configuredId : Option String → Bool
  | none => false
  | some s => !(s == "") && !(pyStrip s == "")

/-- The ordered agent dictionary of `test_agent_ids()`. -/
def agentEntries (env : String → Option String) : List (String × Option String) :=
  [("Customer Loyalty", env "customer_loyalty"),
   ("Inventory Agent", env "inventory_agent"),
   ("Interior Designer", env "interior_designer"),
   ("Cora (Shopper)", env "cora"),
   ("Cart Manager", env "cart_manager")]

/-- `test_agent_ids()`: walk the five agent identifiers; `all_configured`
starts true and is set to false only when an unconfigured entry is named
`Customer Loyalty`.  No network call is ever made. -/
def test_agent_ids (env : String → Option String) : CheckOut :=
  ⟨(agentEntries env).foldl
    (fun all_configured p =>
      if configuredId p.2 then all_configured
      else if p.1 == "Customer Loyalty" then false else all_configured)
    true, 0⟩

/-- The ordered results dictionary built by `main()`. -/
def results (env : String → Option String) (w : World) : List (String × Bool) :=
  [("Azure OpenAI", (test_azure_openai env w).result),
   ("AI Search", (test_ai_search env w).result),
   ("Cosmos DB", (test_cosmos_db env w).result),
   ("Storage Account", (test_storage_account env w).result),
   ("Application Insights", (test_application_insights env).result),
   ("Agent IDs", (test_agent_ids env).result)]

/-- `passed = sum(1 for v in results.values() if v)`. -/
def passedCount (env : String → Option String) (w : World) : Nat :=
  ((results env w).filter fun p => p.2).length

/-- `total = len(results)`. -/
def totalCount (env : String → Option String) (w : World) : Nat :=
  (results env w).length

/-- The failed count printed by `main()`: `total - passed`. -/
def failedCount (env : String → Option String) (w : World) : Nat :=
  totalCount env w - passedCount env w

/-- `main()`'s return value, which becomes the process exit code:
0 when `all(results.values())`, otherwise 1. -/
def main_exit (env : String → Option String) (w : World) : Nat :=
  if (results env w).all (fun p => p.2) then 0 else 1

/-! ### Fallback callers (`src/services/fallback_service.py`) -/

/-- One `{"type": "text", "text": ...}` content block. -/
structure ContentPart where
  type : String
  text : String
deriving DecidableEq, Repr

/-- One role-tagged chat message. -/
structure ChatMessage where
  role : String
  content : List ContentPart
deriving DecidableEq, Repr

/-- The keyword arguments passed to `llm_client.chat.completions.create`.
An `Option` field is `none` when the Python call site does not pass the
keyword at all; `stop := some none` models explicitly passing `stop=None`. -/
structure CompletionParams where
  model : String
  messages : List ChatMessage
  temperature : Rat
  top_p : Option Rat := none
  frequency_penalty : Option Rat := none
  presence_penalty : Option Rat := none
  stop : Option (Option String) := none
  stream : Bool
deriving DecidableEq, Repr

/-- The message of one choice of a completion response. -/
structure ChoiceMessage where
  content : String
deriving DecidableEq, Repr

/-- One choice of a completion response. -/
structure Choice where
  message : ChoiceMessage
deriving DecidableEq, Repr

/-- Optional token-usage counters of a completion response. -/
structure Usage where
  prompt_tokens : Nat
  completion_tokens : Nat
  total_tokens : Nat
deriving DecidableEq, Repr

/-- A completion response: a list of choices plus optional usage counters. -/
structure Completion where
  choices : List Choice
  usage : Option Usage
deriving DecidableEq, Repr

/-- `completion.choices[0].message.content`; the Python `IndexError` on an
empty `choices` list is modelled as `none`. -/
def firstChoiceContent (completion : Completion) : Option String :=
  completion.choices.head?.map fun c => c.message.content

/-- `call_fallback(llm_client, fallback_prompt, gpt_deployment)`: build a
one-element chat prompt with a single system message carrying the prompt as
a text block, call the completion endpoint with temperature 0.7 and
streaming disabled, and return the first choice's message content.  The
client is a function into `Except ε Completion`; its exceptions are the
`error` branch and propagate untouched. -/
def call_fallback {ε : Type} (llm_client : CompletionParams → Except ε Completion)
    (fallback_prompt : String) (gpt_deployment : String := "gpt-5-mini") :
    Except ε (Option String) :=
  let chat_prompt : List ChatMessage :=
    [{ role := "system", content := [{ type := "text", text := fallback_prompt }] }]
  let messages := chat_prompt
  (llm_client
    { model := gpt_deployment
      messages := messages
      temperature := 7/10
      stream := false }).map firstChoiceContent

/-- `cora_fallback(llm_client, fallback_prompt, gpt_deployment)`: as
`call_fallback` but additionally passing `top_p=0.95`,
`frequency_penalty=0`, `presence_penalty=0` and `stop=None`. -/
def cora_fallback {ε : Type} (llm_client : CompletionParams → Except ε Completion)
    (fallback_prompt : String) (gpt_deployment : String := "Phi-4") :
    Except ε (Option String) :=
  let chat_prompt : List ChatMessage :=
    [{ role := "system", content := [{ type := "text", text := fallback_prompt }] }]
  let messages := chat_prompt
  (llm_client
    { model := gpt_deployment
      messages := messages
      temperature := 7/10
      top_p := some (19/20)
      frequency_penalty := some 0
      presence_penalty := some 0
      stop := some none
      stream := false }).map firstChoiceContent

/-- Spec-side description of the request the first fallback caller sends:
exactly one system-role message whose text content is the prompt, streaming
disabled, temperature 0.7, and no further sampling keywords. -/
def fallbackRequestSpec (prompt deployment : String) : CompletionParams :=
  { model := deployment
    messages := [{ role := "system", content := [{ type := "text", text := prompt }] }]
    temperature := 7/10
    top_p := none
    frequency_penalty := none
    presence_penalty := none
    stop := none
    stream := false }

/-- Spec-side description of the request the second fallback caller sends:
as `fallbackRequestSpec` plus top-p 0.95, zero frequency and presence
penalties, and an explicit no-stop-sequence marker. -/
def coraRequestSpec (prompt deployment : String) : CompletionParams :=
  { model := deployment
    messages := [{ role := "system", content := [{ type := "text", text := prompt }] }]
    temperature := 7/10
    top_p := some (19/20)
    frequency_penalty := some 0
    presence_penalty := some 0
    stop := some none
    stream := false }

/-! ### Concrete inputs used to instantiate the theorems -/

/-- An environment with every variable absent. -/
def envAbsent : String → Option String := fun _ => none

/-- An environment with every variable set to the empty string. -/
def envEmpty : String → Option String := fun _ => some ""

/-- An environment with every variable set to a non-blank value. -/
def envFull : String → Option String := fun _ => some "x"

/-- An environment configuring exactly the three search-probe variables. -/
def searchEnvEx : String → Option String := fun k =>
  if k == "SEARCH_ENDPOINT" then some "https://search.example.net"
  else if k == "SEARCH_KEY" then some "key"
  else if k == "INDEX_NAME" then some "idx" else none

/-- A world whose HTTP layer always returns the given result and whose SDK
operations fail. -/
def constWorld (r : HttpResult) : World :=
  ⟨fun _ _ => r, fun _ _ => .fail, fun _ _ => .fail⟩

/-- A world in which every HTTP call raises a transport exception and every
SDK operation raises. -/
def worldAllFail : World :=
  ⟨fun _ _ => .exc, fun _ _ => .fail, fun _ _ => .fail⟩

/-- A completion response with a single choice carrying a fixed reply. -/
def witnessCompletion : Completion := ⟨[⟨⟨"fixed reply"⟩⟩], none⟩

/-! ### Theorems -/

/-- C1: `main()` returns process exit code 0 if and only if all six
individual checks return true, and returns 1 otherwise, for every
combination of the six boolean check results. -/
theorem main_exit_zero_iff_all_checks_pass (env : String → Option String) (w : World) :
    (main_exit env w = 0 ↔
      ((test_azure_openai env w).result && (test_ai_search env w).result &&
       (test_cosmos_db env w).result && (test_storage_account env w).result &&
       (test_application_insights env).result && (test_agent_ids env).result) = true) ∧
    (main_exit env w = 1 ↔
      ¬((test_azure_openai env w).result && (test_ai_search env w).result &&
        (test_cosmos_db env w).result && (test_storage_account env w).result &&
        (test_application_insights env).result && (test_agent_ids env).result) = true) := by
  cases h1 : (test_azure_openai env w).result <;>
  cases h2 : (test_ai_search env w).result <;>
  cases h3 : (test_cosmos_db env w).result <;>
  cases h4 : (test_storage_account env w).result <;>
  cases h5 : (test_application_insights env).result <;>
  cases h6 : (test_agent_ids env).result <;>
    simp [main_exit, results, h1, h2, h3, h4, h5, h6]

/-- C2: the shared endpoint test returns true exactly when the HTTP response
status is strictly under 500 (so 404, 401, 403 count as reachable), returns
false for a transport exception, and in particular the search-index probe
returns true on a 404 response and false on a 500 response. -/
theorem test_endpoint_status_threshold :
    (∀ (http : String → List (String × String) → HttpResult) (name url : String)
        (headers : List (String × String)) (status : Nat),
      http url headers = .resp status →
        (test_endpoint http name url headers).result = decide (status < 500)) ∧
    (∀ (http : String → List (String × String) → HttpResult) (name url : String)
        (headers : List (String × String)),
      http url headers = .exc →
        (test_endpoint http name url headers).result = false) ∧
    (test_ai_search searchEnvEx (constWorld (.resp 404))).result = true ∧
    (test_ai_search searchEnvEx (constWorld (.resp 500))).result = false := by
  refine ⟨?_, ?_, ?_, ?_⟩
  · intro http name url headers status h
    simp [test_endpoint, h]
  · intro http name url headers h
    simp [test_endpoint, h]
  · rfl
  · rfl

/-- Witness for C2: the endpoint test evaluated at concrete HTTP outcomes. -/
theorem test_endpoint_status_threshold_witness :
    (test_endpoint (fun _ _ => .resp 404) "AI Search" "u" []).result = decide (404 < 500) ∧
    (test_endpoint (fun _ _ => .exc) "AI Search" "u" []).result = false :=
  ⟨test_endpoint_status_threshold.1 (fun _ _ => .resp 404) "AI Search" "u" [] 404 rfl,
   test_endpoint_status_threshold.2.1 (fun _ _ => .exc) "AI Search" "u" [] rfl⟩

/-- C3: for each of the six checks, whenever a required configuration value
is absent from the environment, the check returns false and performs no
network call; the telemetry and agent-identifier checks never perform a
network call at all. -/
theorem checks_short_circuit_without_network (env : String → Option String) (w : World) :
    ((env "AZURE_OPENAI_ENDPOINT" = none ∨ env "AZURE_OPENAI_KEY" = none ∨
        env "AZURE_OPENAI_API_VERSION" = none) →
      test_azure_openai env w = ⟨false, 0⟩) ∧
    ((env "SEARCH_ENDPOINT" = none ∨ env "SEARCH_KEY" = none ∨
        env "INDEX_NAME" = none) →
      test_ai_search env w = ⟨false, 0⟩) ∧
    ((env "COSMOS_ENDPOINT" = none ∨ env "DATABASE_NAME" = none) →
      test_cosmos_db env w = ⟨false, 0⟩) ∧
    ((env "storage_account_name" = none ∨ env "storage_container_name" = none) →
      test_storage_account env w = ⟨false, 0⟩) ∧
    (env "APPLICATIONINSIGHTS_CONNECTION_STRING" = none →
      test_application_insights env = ⟨false, 0⟩) ∧
    (env "customer_loyalty" = none → test_agent_ids env = ⟨false, 0⟩) ∧
    (test_application_insights env).networkCalls = 0 ∧
    (test_agent_ids env).networkCalls = 0 := by
  refine ⟨?_, ?_, ?_, ?_, ?_, ?_, ?_, rfl⟩
  · rintro (h | h | h) <;> simp [test_azure_openai, truthy, h]
  · rintro (h | h | h) <;> simp [test_ai_search, truthy, h]
  · rintro (h | h) <;> simp [test_cosmos_db, truthy, h]
  · rintro (h | h) <;> simp [test_storage_account, truthy, h]
  · intro h; simp [test_application_insights, truthy, h]
  · intro h; simp [test_agent_ids, agentEntries, configuredId, h]
  · cases htr : truthy (env "APPLICATIONINSIGHTS_CONNECTION_STRING") <;>
      simp [test_application_insights, htr]

/-- Witness for C3: with every environment variable absent, all six checks
return false and attempt no network call. -/
theorem checks_short_circuit_without_network_witness :
    test_azure_openai envAbsent worldAllFail = ⟨false, 0⟩ ∧
    test_ai_search envAbsent worldAllFail = ⟨false, 0⟩ ∧
    test_cosmos_db envAbsent worldAllFail = ⟨false, 0⟩ ∧
    test_storage_account envAbsent worldAllFail = ⟨false, 0⟩ ∧
    test_application_insights envAbsent = ⟨false, 0⟩ ∧
    test_agent_ids envAbsent = ⟨false, 0⟩ := by
  have h := checks_short_circuit_without_network envAbsent worldAllFail
  exact ⟨h.1 (Or.inl rfl), h.2.1 (Or.inl rfl), h.2.2.1 (Or.inl rfl),
    h.2.2.2.1 (Or.inl rfl), h.2.2.2.2.1 rfl, h.2.2.2.2.2.1 rfl⟩

/-- C9: the result mapping contains exactly one entry per configured
service, in declared order with no duplicate service name, six entries in
total, and the printed passed and failed counts sum to that total. -/
theorem results_exactly_six_services (env : String → Option String) (w : World) :
    (results env w).map Prod.fst =
      ["Azure OpenAI", "AI Search", "Cosmos DB", "Storage Account",
       "Application Insights", "Agent IDs"] ∧
    ((results env w).map Prod.fst).Nodup ∧
    totalCount env w = 6 ∧
    passedCount env w + failedCount env w = totalCount env w := by
  have hmap : (results env w).map Prod.fst =
      ["Azure OpenAI", "AI Search", "Cosmos DB", "Storage Account",
       "Application Insights", "Agent IDs"] := rfl
  refine ⟨hmap, by rw [hmap]; decide, rfl, ?_⟩
  have hle := List.length_filter_le (fun p => p.2) (results env w)
  simp only [failedCount, passedCount, totalCount] at hle ⊢
  omega

/-- C10: for every configuration-guarded check, an environment variable set
to the empty string is treated exactly like an absent one: the check returns
false without proceeding to the service call. -/
theorem empty_string_config_like_absent (env : String → Option String) (w : World) :
    (env "AZURE_OPENAI_ENDPOINT" = some "" → test_azure_openai env w = ⟨false, 0⟩) ∧
    (env "AZURE_OPENAI_KEY" = some "" → test_azure_openai env w = ⟨false, 0⟩) ∧
    (env "AZURE_OPENAI_API_VERSION" = some "" → test_azure_openai env w = ⟨false, 0⟩) ∧
    (env "SEARCH_ENDPOINT" = some "" → test_ai_search env w = ⟨false, 0⟩) ∧
    (env "SEARCH_KEY" = some "" → test_ai_search env w = ⟨false, 0⟩) ∧
    (env "INDEX_NAME" = some "" → test_ai_search env w = ⟨false, 0⟩) ∧
    (env "COSMOS_ENDPOINT" = some "" → test_cosmos_db env w = ⟨false, 0⟩) ∧
    (env "DATABASE_NAME" = some "" → test_cosmos_db env w = ⟨false, 0⟩) ∧
    (env "storage_account_name" = some "" → test_storage_account env w = ⟨false, 0⟩) ∧
    (env "storage_container_name" = some "" → test_storage_account env w = ⟨false, 0⟩) ∧
    (env "APPLICATIONINSIGHTS_CONNECTION_STRING" = some "" →
      test_application_insights env = ⟨false, 0⟩) := by
  refine ⟨?_, ?_, ?_, ?_, ?_, ?_, ?_, ?_, ?_, ?_, ?_⟩ <;> intro h
  · simp [test_azure_openai, truthy, h]
  · simp [test_azure_openai, truthy, h]
  · simp [test_azure_openai, truthy, h]
  · simp [test_ai_search, truthy, h]
  · simp [test_ai_search, truthy, h]
  · simp [test_ai_search, truthy, h]
  · simp [test_cosmos_db, truthy, h]
  · simp [test_cosmos_db, truthy, h]
  · simp [test_storage_account, truthy, h]
  · simp [test_storage_account, truthy, h]
  · simp [test_application_insights, truthy, h]

/-- Witness for C10: with every variable set to the empty string, the five
guarded checks return false with no network call. -/
theorem empty_string_config_like_absent_witness :
    test_azure_openai envEmpty worldAllFail = ⟨false, 0⟩ ∧
    test_ai_search envEmpty worldAllFail = ⟨false, 0⟩ ∧
    test_cosmos_db envEmpty worldAllFail = ⟨false, 0⟩ ∧
    test_storage_account envEmpty worldAllFail = ⟨false, 0⟩ ∧
    test_application_insights envEmpty = ⟨false, 0⟩ := by
  have h := empty_string_config_like_absent envEmpty worldAllFail
  exact ⟨h.1 rfl, h.2.2.2.1 rfl, h.2.2.2.2.2.2.1 rfl,
    h.2.2.2.2.2.2.2.2.1 rfl, h.2.2.2.2.2.2.2.2.2.2 rfl⟩

/-- C4: the telemetry check returns true exactly when the parsed
semicolon-delimited key=value connection string carries both the
`InstrumentationKey` key and the `IngestionEndpoint` key, returns false
whenever either key is missing, and never performs a network call. -/
theorem application_insights_requires_both_keys (env : String → Option String) :
    test_application_insights env =
      ⟨(match env "APPLICATIONINSIGHTS_CONNECTION_STRING" with
        | some s => hasKey s "InstrumentationKey" && hasKey s "IngestionEndpoint"
        | none => false), 0⟩ := by
  cases h : env "APPLICATIONINSIGHTS_CONNECTION_STRING" with
  | none => simp [test_application_insights, truthy, h]
  | some s =>
    by_cases hs : s = ""
    · subst hs
      simp [test_application_insights, truthy, h]
      decide
    · simp [test_application_insights, truthy, h, hs]

/-- C5: the agent-identifier check returns false if and only if the
Customer Loyalty identifier is absent or blank, regardless of the state of
the other four identifiers; an identifier is configured exactly when its
stripped value is non-empty. -/
theorem agent_ids_required_identifier_only (env : String → Option String) :
    ((test_agent_ids env).result = false ↔
      configuredId (env "customer_loyalty") = false) ∧
    configuredId none = false ∧
    (∀ s : String, configuredId (some s) = !(pyStrip s == "")) := by
  have hres : (test_agent_ids env).result = configuredId (env "customer_loyalty") := by
    cases h1 : configuredId (env "customer_loyalty") <;>
    cases h2 : configuredId (env "inventory_agent") <;>
    cases h3 : configuredId (env "interior_designer") <;>
    cases h4 : configuredId (env "cora") <;>
    cases h5 : configuredId (env "cart_manager") <;>
      simp [test_agent_ids, agentEntries, h1, h2, h3, h4, h5]
  refine ⟨by rw [hres], rfl, ?_⟩
  intro s
  by_cases hs : s = ""
  · subst hs; decide
  · simp [configuredId, hs]

/-- C8: no exception of the external services escapes a single check: with
every HTTP call raising a transport exception and every SDK operation
raising, each networked check still returns the boolean false, and for every
behaviour of the world all six checks are executed and reported. -/
theorem checks_convert_exceptions_to_false (env : String → Option String) (w : World)
    (hhttp : ∀ u hd, w.http u hd = HttpResult.exc)
    (hcosmos : ∀ a b, w.cosmos a b = SdkResult.fail)
    (hstorage : ∀ a b, w.storage a b = SdkResult.fail) :
    (test_azure_openai env w).result = false ∧
    (test_ai_search env w).result = false ∧
    (test_cosmos_db env w).result = false ∧
    (test_storage_account env w).result = false ∧
    (∀ w' : World, (results env w').length = 6) := by
  refine ⟨?_, ?_, ?_, ?_, fun w' => rfl⟩
  · cases hg : truthy (env "AZURE_OPENAI_ENDPOINT") && truthy (env "AZURE_OPENAI_KEY") &&
      truthy (env "AZURE_OPENAI_API_VERSION") <;>
      simp [test_azure_openai, hg, test_endpoint, hhttp]
  · cases hg : truthy (env "SEARCH_ENDPOINT") && truthy (env "SEARCH_KEY") &&
      truthy (env "INDEX_NAME") <;>
      simp [test_ai_search, hg, test_endpoint, hhttp]
  · cases hg : truthy (env "COSMOS_ENDPOINT") && truthy (env "DATABASE_NAME") <;>
      simp [test_cosmos_db, hg, hcosmos]
  · cases hg : truthy (env "storage_account_name") && truthy (env "storage_container_name") <;>
      simp [test_storage_account, hg, hstorage]

/-- Witness for C8: with full configuration and an all-raising world, the
four networked checks return false and the report still has six entries. -/
theorem checks_convert_exceptions_to_false_witness :
    (test_azure_openai envFull worldAllFail).result = false ∧
    (test_ai_search envFull worldAllFail).result = false ∧
    (test_cosmos_db envFull worldAllFail).result = false ∧
    (test_storage_account envFull worldAllFail).result = false ∧
    (results envFull worldAllFail).length = 6 := by
  have h := checks_convert_exceptions_to_false envFull worldAllFail
    (fun _ _ => rfl) (fun _ _ => rfl) (fun _ _ => rfl)
  exact ⟨h.1, h.2.1, h.2.2.1, h.2.2.2.1, h.2.2.2.2 worldAllFail⟩

/-- C6: each fallback caller sends a request consisting of exactly one
system-role message whose text content is the prompt, with streaming
disabled and temperature 0.7 (the second variant additionally passing
top-p 0.95, zero frequency and presence penalties, and an explicit `None`
stop sequence), and returns exactly the first choice's message text of the
endpoint's response.  The request actually sent is observed by a client
that returns its argument as the error value. -/
theorem fallback_callers_request_and_first_choice {ε : Type} (prompt deployment : String) :
    (call_fallback (fun p => (Except.error p : Except CompletionParams Completion))
        prompt deployment = .error (fallbackRequestSpec prompt deployment)) ∧
    (cora_fallback (fun p => (Except.error p : Except CompletionParams Completion))
        prompt deployment = .error (coraRequestSpec prompt deployment)) ∧
    (∀ (llm_client : CompletionParams → Except ε Completion) (completion : Completion)
        (c : Choice) (rest : List Choice),
      completion.choices = c :: rest →
        (llm_client (fallbackRequestSpec prompt deployment) = .ok completion →
          call_fallback llm_client prompt deployment = .ok (some c.message.content)) ∧
        (llm_client (coraRequestSpec prompt deployment) = .ok completion →
          cora_fallback llm_client prompt deployment = .ok (some c.message.content))) := by
  refine ⟨rfl, rfl, ?_⟩
  intro llm_client completion c rest hchoices
  constructor
  · intro hclient
    have hdef : call_fallback llm_client prompt deployment =
        (llm_client (fallbackRequestSpec prompt deployment)).map firstChoiceContent := rfl
    rw [hdef, hclient]
    simp [Except.map, firstChoiceContent, hchoices]
  · intro hclient
    have hdef : cora_fallback llm_client prompt deployment =
        (llm_client (coraRequestSpec prompt deployment)).map firstChoiceContent := rfl
    rw [hdef, hclient]
    simp [Except.map, firstChoiceContent, hchoices]

/-- Witness for C6: against a client that always answers with a single
fixed-reply choice, both fallback callers return exactly that reply. -/
theorem fallback_callers_request_and_first_choice_witness :
    call_fallback (fun _ => (Except.ok witnessCompletion : Except Unit Completion))
      "ping" "gpt-5-mini" = .ok (some "fixed reply") ∧
    cora_fallback (fun _ => (Except.ok witnessCompletion : Except Unit Completion))
      "ping" "Phi-4" = .ok (some "fixed reply") := by
  have h1 := (fallback_callers_request_and_first_choice (ε := Unit) "ping" "gpt-5-mini").2.2
    (fun _ => .ok witnessCompletion) witnessCompletion ⟨⟨"fixed reply"⟩⟩ [] rfl
  have h2 := (fallback_callers_request_and_first_choice (ε := Unit) "ping" "Phi-4").2.2
    (fun _ => .ok witnessCompletion) witnessCompletion ⟨⟨"fixed reply"⟩⟩ [] rfl
  exact ⟨h1.1 rfl, h2.2 rfl⟩

/-- C7: every exception raised by the underlying completion call is
propagated unchanged by both fallback callers: the result is exactly the
same error, so no substitute call is made and no value is returned on the
error path. -/
theorem fallback_callers_propagate_exceptions {ε : Type} (prompt deployment : String)
    (llm_client : CompletionParams → Except ε Completion) (e : ε) :
    (llm_client (fallbackRequestSpec prompt deployment) = .error e →
      call_fallback llm_client prompt deployment = .error e) ∧
    (llm_client (coraRequestSpec prompt deployment) = .error e →
      cora_fallback llm_client prompt deployment = .error e) := by
  constructor
  · intro h
    have hdef : call_fallback llm_client prompt deployment =
        (llm_client (fallbackRequestSpec prompt deployment)).map firstChoiceContent := rfl
    rw [hdef, h]
    rfl
  · intro h
    have hdef : cora_fallback llm_client prompt deployment =
        (llm_client (coraRequestSpec prompt deployment)).map firstChoiceContent := rfl
    rw [hdef, h]
    rfl

/-- Witness for C7: a client that always raises error 7 makes both fallback
callers return exactly error 7. -/
theorem fallback_callers_propagate_exceptions_witness :
    call_fallback (fun _ => (Except.error 7 : Except Nat Completion)) "ping" "gpt-5-mini"
      = .error 7 ∧
    cora_fallback (fun _ => (Except.error 7 : Except Nat Completion)) "ping" "Phi-4"
      = .error 7 := by
  have h1 := fallback_callers_propagate_exceptions (ε := Nat) "ping" "gpt-5-mini"
    (fun _ => .error 7) 7
  have h2 := fallback_callers_propagate_exceptions (ε := Nat) "ping" "Phi-4"
    (fun _ => .error 7) 7
  exact ⟨h1.1 rfl, h2.2 rfl⟩

end TechWorkshop
